import Mathlib

/-!
Verification of the `paypal_express_checkout` data-model layer
(`paypal_express_checkout/models.py`) against its specification.

The file shallowly embeds the four Django model classes (`Item`,
`PaymentTransaction`, `PurchasedItem`, `PaymentTransactionError`) and the
relevant fragments of the Django ORM semantics they rely on:

* object-level structures mirroring how Python instances see their fields
  (used for the `__unicode__` string representations and the `Meta.ordering`
  comparison keys);
* a relational persistence state `Db` with rows keyed by primary key, with
  insert/update operations that enforce exactly what Django's `save()` plus
  the database enforce: foreign-key existence for `ForeignKey` columns
  (`NOT NULL` ones must resolve, `null=True` ones may be absent), and the
  `auto_now` / `auto_now_add` timestamp rules of `DateTimeField.pre_save`;
* the Django model metaclass rule that only attributes that are actual
  `Field` instances become columns — a class attribute that is a tuple
  (as produced by a trailing comma after a field declaration) is ignored.

Timestamps are modelled as natural numbers, monetary values
(`DecimalField(max_digits=8, decimal_places=2)`) as an integer count of
hundredths.
-/

/-- A fixed-point decimal with two decimal places, as stored by
`DecimalField(decimal_places=2)`: the value in hundredths. -/
structure Decimal2 where
  cents : Int
deriving DecidableEq, Repr

/-- Rendering of a two-place decimal as Python's `str` renders a quantized
`Decimal`: optional sign, integer part, a dot, and exactly two fractional
digits. -/
def Decimal2.str (d : Decimal2) : String :=
  let sign := if d.cents < 0 then "-" else ""
  let n := d.cents.natAbs
  let frac := n % 100
  sign ++ toString (n / 100) ++ "." ++ (if frac < 10 then "0" else "") ++ toString frac

/-- The slice of `auth.User` the models read: the e-mail address used by
`PurchasedItem.__unicode__`. -/
structure User where
  email : String
deriving DecidableEq, Repr

/-- Object-level view of `Item` (models.py lines 10-38): name, description
and price. -/
structure Item where
  name : String
  description : String
  value : Decimal2
deriving DecidableEq, Repr

/-- `Item.__unicode__`: the format string `'{0} - {1} $'` applied to the
name and the decimal value. -/
def Item.unicode (i : Item) : String :=
  i.name ++ " - " ++ i.value.str ++ " $"

/-- Object-level view of `PaymentTransaction` (models.py lines 41-101):
user, the two halves of the generic (polymorphic) reference, date,
PayPal transaction identifier, value and status. -/
structure PaymentTransaction where
  user : User
  content_type : Option Nat
  object_id : Option Nat
  date : Nat
  transaction_id : String
  value : Decimal2
  status : String
deriving DecidableEq, Repr

/-- `PaymentTransaction.__unicode__`: the transaction identifier. -/
def PaymentTransaction.unicode (t : PaymentTransaction) : String :=
  t.transaction_id

/-- Object-level view of `PurchasedItem` (models.py lines 104-140):
user, transaction, item and quantity, with the foreign keys resolved to
the referenced objects as Python instance attributes present them. -/
structure PurchasedItem where
  user : User
  transaction : PaymentTransaction
  item : Item
  quantity : Nat
deriving DecidableEq, Repr

/-- `PurchasedItem.__unicode__`: the format string `'{0} {1} of {2} [{3}]'`
applied to the quantity, the item (rendered through `Item.__unicode__`),
the user's e-mail and the transaction (rendered through
`PaymentTransaction.__unicode__`). -/
def PurchasedItem.unicode (p : PurchasedItem) : String :=
  toString p.quantity ++ " " ++ p.item.unicode ++ " of " ++ p.user.email
    ++ " [" ++ p.transaction.unicode ++ "]"

/-!
## Default orderings

`PaymentTransaction.Meta.ordering = ['-date', 'transaction_id']` and
`PurchasedItem.Meta.ordering = ['-transaction__date',
'transaction__transaction_id']` order a queryset by the first key
descending and the second ascending.  A default retrieval is modelled as
sorting the stored rows with the corresponding total preorder.
-/

/-- The row order induced by an ordering declaration of the shape
`['-dateKey', 'idKey']` with `key` extracting the two sort keys of a row:
an earlier row has a strictly larger date key, or an equal date key and
an identifier key that is not larger. -/
def orderingLe {α : Type} (key : α → Nat × String) (a b : α) : Prop :=
  (key b).fst < (key a).fst ∨ ((key a).fst = (key b).fst ∧ (key a).snd ≤ (key b).snd)

instance {α : Type} (key : α → Nat × String) : DecidableRel (orderingLe key) :=
  fun a b => by unfold orderingLe; infer_instance

instance {α : Type} {key : α → Nat × String} : IsTotal α (orderingLe key) := by
  refine ⟨fun a b => ?_⟩
  rcases Nat.lt_trichotomy (key a).fst (key b).fst with h | h | h
  · exact Or.inr (Or.inl h)
  · rcases le_total (key a).snd (key b).snd with h' | h'
    · exact Or.inl (Or.inr ⟨h, h'⟩)
    · exact Or.inr (Or.inr ⟨h.symm, h'⟩)
  · exact Or.inl (Or.inl h)

instance {α : Type} {key : α → Nat × String} : IsTrans α (orderingLe key) := by
  refine ⟨fun a b c hab hbc => ?_⟩
  rcases hab with hab | ⟨hab, hab'⟩
  · rcases hbc with hbc | ⟨hbc, _⟩
    · exact Or.inl (hbc.trans hab)
    · exact Or.inl (hbc ▸ hab)
  · rcases hbc with hbc | ⟨hbc, hbc'⟩
    · exact Or.inl (hab ▸ hbc)
    · exact Or.inr ⟨hab.trans hbc, hab'.trans hbc'⟩

/-- The sort keys named by `PaymentTransaction.Meta.ordering =
['-date', 'transaction_id']`. -/
def txnOrderingKey (t : PaymentTransaction) : Nat × String :=
  (t.date, t.transaction_id)

/-- Default retrieval of a set of stored transactions: the rows sorted by
the model's `Meta.ordering`. -/
def paymentTransactionQuery (rows : List PaymentTransaction) : List PaymentTransaction :=
  List.insertionSort (orderingLe txnOrderingKey) rows

/-- The sort keys named by `PurchasedItem.Meta.ordering =
['-transaction__date', 'transaction__transaction_id']`: both are read
through the `transaction` foreign key. -/
def purchasedOrderingKey (p : PurchasedItem) : Nat × String :=
  (p.transaction.date, p.transaction.transaction_id)

/-- Default retrieval of a set of stored purchased items: the rows sorted
by the model's `Meta.ordering`. -/
def purchasedItemQuery (rows : List PurchasedItem) : List PurchasedItem :=
  List.insertionSort (orderingLe purchasedOrderingKey) rows

/-!
## Persistence layer

Rows as they are stored in the database, keyed by primary key, and the
create/update operations the unseen calling code performs through the ORM.
An insert or update succeeds exactly when every `ForeignKey` column
resolves (a `null=True` foreign key may instead be absent); no other
validation happens at save time — in particular Django's `choices` option
is only checked by model validation (`full_clean`), never by `save()`.
-/

/-- Stored `Item` row. -/
structure ItemRow where
  name : String
  description : String
  value : Decimal2
deriving DecidableEq, Repr

/-- Stored `PaymentTransaction` row: foreign keys by primary key, both
halves of the generic reference independently nullable. -/
structure PaymentTransactionRow where
  user_id : Nat
  content_type_id : Option Nat
  object_id : Option Nat
  date : Nat
  transaction_id : String
  value : Decimal2
  status : String
deriving DecidableEq, Repr

/-- Stored `PurchasedItem` row: non-nullable foreign keys to user,
transaction and item, plus the quantity. -/
structure PurchasedItemRow where
  user_id : Nat
  transaction_id : Nat
  item_id : Nat
  quantity : Nat
deriving DecidableEq, Repr

/-- Stored `PaymentTransactionError` row.  The source's `transaction`
attribute is a tuple (trailing comma, models.py line 170), so the model
metaclass does not register it and no such column exists; the table has
only `date`, `user` and `response` (see `registeredFields` below). -/
structure PaymentTransactionErrorRow where
  date : Nat
  user_id : Nat
  response : String
deriving DecidableEq, Repr

/-- Database state: primary keys of the rows of the two external tables
(`auth.User`, `django_content_type`) and the rows of the four tables this
app defines. -/
structure Db where
  users : List Nat
  contentTypes : List Nat
  items : List (Nat × ItemRow)
  transactions : List (Nat × PaymentTransactionRow)
  purchasedItems : List (Nat × PurchasedItemRow)
  transactionErrors : List (Nat × PaymentTransactionErrorRow)
deriving DecidableEq, Repr

/-- UPDATE of the row with primary key `pk` in a table. -/
def updateRow {α : Type} (rows : List (Nat × α)) (pk : Nat) (r : α) :
    List (Nat × α) :=
  rows.map fun e => if e.fst = pk then (pk, r) else e

/-- A nullable foreign key satisfies the constraint when it is absent or
resolves to an existing primary key. -/
def optionalFkOk (o : Option Nat) (pks : List Nat) : Bool :=
  match o with
  | none => true
  | some k => pks.contains k

/-- `DateTimeField.pre_save`: the stored value is the current time when
`auto_now` is set, or when `auto_now_add` is set and the save is an
insert; otherwise the instance's existing value is kept. -/
def dateTimeFieldPreSave (autoNow autoNowAdd add : Bool) (now old : Nat) : Nat :=
  if autoNow || (autoNowAdd && add) then now else old

/-- Creating an `Item`: no foreign keys, so the insert always succeeds and
stores the three fields verbatim. -/
def insertItem (db : Db) (pk : Nat) (name description : String)
    (value : Decimal2) : Db :=
  { db with items := (pk, ⟨name, description, value⟩) :: db.items }

/-- The field values supplied by a caller saving a `PaymentTransaction`;
`date` is absent because the field is auto-managed. -/
structure PaymentTransactionData where
  user_id : Nat
  content_type_id : Option Nat
  object_id : Option Nat
  transaction_id : String
  value : Decimal2
  status : String
deriving DecidableEq, Repr

/-- Creating a `PaymentTransaction`: the `user` foreign key must resolve,
the `content_type` foreign key may be absent, `object_id` is a plain
nullable integer, `date` is set to the save time (`auto_now`/
`auto_now_add`), and the remaining fields — `status` included — are
stored verbatim. -/
def insertPaymentTransaction (db : Db) (pk : Nat) (d : PaymentTransactionData)
    (now : Nat) : Except String Db :=
  if db.users.contains d.user_id && optionalFkOk d.content_type_id db.contentTypes then
    .ok { db with transactions :=
      (pk, { user_id := d.user_id
             content_type_id := d.content_type_id
             object_id := d.object_id
             date := dateTimeFieldPreSave true true true now 0
             transaction_id := d.transaction_id
             value := d.value
             status := d.status }) :: db.transactions }
  else .error "FOREIGN KEY constraint failed"

/-- Saving an existing `PaymentTransaction`: the same checks, and
`auto_now` replaces the stored date with the time of this save. -/
def updatePaymentTransaction (db : Db) (pk : Nat) (d : PaymentTransactionData)
    (now : Nat) : Except String Db :=
  match db.transactions.lookup pk with
  | none => .error "PaymentTransaction matching query does not exist"
  | some old =>
    if db.users.contains d.user_id && optionalFkOk d.content_type_id db.contentTypes then
      .ok { db with transactions := updateRow db.transactions pk (PaymentTransactionRow.mk d.user_id d.content_type_id d.object_id (dateTimeFieldPreSave true true false now old.date) d.transaction_id d.value d.status) }
    else .error "FOREIGN KEY constraint failed"

/-- Creating a `PurchasedItem`: all three foreign keys are non-nullable
and must resolve to existing rows, otherwise the database rejects the
insert. -/
def insertPurchasedItem (db : Db) (pk : Nat) (d : PurchasedItemRow) :
    Except String Db :=
  if db.users.contains d.user_id && (db.transactions.lookup d.transaction_id).isSome
      && (db.items.lookup d.item_id).isSome then
    .ok { db with purchasedItems := (pk, d) :: db.purchasedItems }
  else .error "FOREIGN KEY constraint failed"

/-- The field values supplied by a caller saving a
`PaymentTransactionError`; `date` is auto-managed. -/
structure PaymentTransactionErrorData where
  user_id : Nat
  response : String
deriving DecidableEq, Repr

/-- Creating a `PaymentTransactionError`: the `user` foreign key must
resolve, and `auto_now_add` stamps the row with the creation time. -/
def insertPaymentTransactionError (db : Db) (pk : Nat)
    (d : PaymentTransactionErrorData) (now : Nat) : Except String Db :=
  if db.users.contains d.user_id then
    .ok { db with transactionErrors :=
      (pk, { date := dateTimeFieldPreSave false true true now 0
             user_id := d.user_id
             response := d.response }) :: db.transactionErrors }
  else .error "FOREIGN KEY constraint failed"

/-- Saving an existing `PaymentTransactionError` with updated fields: the
date field has only `auto_now_add`, so `pre_save` keeps the stored value
on an update. -/
def updatePaymentTransactionError (db : Db) (pk : Nat)
    (d : PaymentTransactionErrorData) (now : Nat) : Except String Db :=
  match db.transactionErrors.lookup pk with
  | none => .error "PaymentTransactionError matching query does not exist"
  | some old =>
    if db.users.contains d.user_id then
      .ok { db with transactionErrors := updateRow db.transactionErrors pk (PaymentTransactionErrorRow.mk (dateTimeFieldPreSave false true false now old.date) d.user_id d.response) }
    else .error "FOREIGN KEY constraint failed"

/-!
## Model metaclass field registration

Django's `ModelBase` metaclass turns a class attribute into a database
column only when the assigned value is a `Field` instance (it is
`contribute_to_class`-ed); any other value — in particular a tuple, as
produced by a trailing comma after a field call — stays a plain class
attribute and creates no column.
-/

/-- A field declaration as it appears in the class body: the field class
used and its `null`/`blank` options. -/
structure FieldDecl where
  kind : String
  null : Bool
  blank : Bool
deriving DecidableEq, Repr

/-- The value assigned to a model class attribute: either a `Field`
instance, or a tuple (not a `Field`, even when it wraps one). -/
inductive ModelAttrValue where
  | fieldValue (f : FieldDecl)
  | tupleValue (fs : List FieldDecl)
deriving DecidableEq, Repr

/-- The columns the metaclass registers: the names of exactly those class
attributes whose value is a `Field` instance. -/
def registeredFields (attrs : List (String × ModelAttrValue)) : List String :=
  attrs.filterMap fun a =>
    match a.snd with
    | .fieldValue _ => some a.fst
    | .tupleValue _ => none

/-- The class body of `PaymentTransactionError` (models.py lines 143-170).
The `transaction` declaration ends in a trailing comma (line 170), so its
value is a one-element tuple wrapping the `ForeignKey`, not a `Field`. -/
def paymentTransactionErrorAttrs : List (String × ModelAttrValue) :=
  [("date", .fieldValue ⟨"DateTimeField", false, false⟩),
   ("user", .fieldValue ⟨"ForeignKey", false, false⟩),
   ("response", .fieldValue ⟨"TextField", false, false⟩),
   ("transaction", .tupleValue [⟨"ForeignKey", true, true⟩])]

/-!
## Status choices and model validation
-/

/-- Modelled from the spec: `paypal_express_checkout/constants.py`, which
defines `STATUS_CHOICES`, is not part of the excerpt.  The spec describes
the status as drawn from a fixed enumerated set of provider-reported
states, "e.g. pending/completed/failed — exact set defined externally in a
constants collaborator", in the usual Django `(key, label)` shape. -/
def STATUS_CHOICES : List (String × String) :=
  [("pending", "Pending"), ("completed", "Completed"), ("failed", "Failed")]

/-- The `choices` check Django performs during model validation
(`Field.validate`, reached from `full_clean`) and nowhere else: the value
must equal the key of one of the declared choices. -/
def choiceValid (choices : List (String × String)) (v : String) : Bool :=
  choices.any fun c => c.fst == v

/-!
## Referential integrity of stored purchased items
-/

/-- Every stored `PurchasedItem` row references an existing user,
an existing transaction and an existing item. -/
def purchasedItemRefsOk (db : Db) : Prop :=
  ∀ e ∈ db.purchasedItems,
    db.users.contains e.snd.user_id = true ∧
    (db.transactions.lookup e.snd.transaction_id).isSome = true ∧
    (db.items.lookup e.snd.item_id).isSome = true

instance (db : Db) : Decidable (purchasedItemRefsOk db) := by
  unfold purchasedItemRefsOk; infer_instance

/-!
## Concrete states

Small database states and field values used to instantiate the theorems.
-/

/-- A state with one user (pk 7) and one content type (pk 3). -/
def dbW : Db :=
  { users := [7], contentTypes := [3], items := [], transactions := [],
    purchasedItems := [], transactionErrors := [] }

/-- Caller-supplied transaction fields whose status is not one of the
declared choices. -/
def bogusStatusData : PaymentTransactionData :=
  { user_id := 7, content_type_id := none, object_id := none,
    transaction_id := "5TY05013RG002845M", value := ⟨4200⟩,
    status := "no-such-status" }

/-- The state after saving `bogusStatusData` into `dbW` at time 11. -/
def dbBogus : Db :=
  { dbW with transactions :=
      [(1, { user_id := 7, content_type_id := none, object_id := none,
             date := 11, transaction_id := "5TY05013RG002845M",
             value := ⟨4200⟩, status := "no-such-status" })] }

/-- Ordinary caller-supplied transaction fields. -/
def txnData : PaymentTransactionData :=
  { user_id := 7, content_type_id := some 3, object_id := some 9,
    transaction_id := "8XL90013RG002711A", value := ⟨1500⟩,
    status := "pending" }

/-- The state after creating `txnData` in `dbW` at time 5. -/
def dbTxn : Db :=
  { dbW with transactions :=
      [(1, { user_id := 7, content_type_id := some 3, object_id := some 9,
             date := 5, transaction_id := "8XL90013RG002711A",
             value := ⟨1500⟩, status := "pending" })] }

/-- The state after saving the stored transaction again at time 6. -/
def dbTxn2 : Db :=
  { dbW with transactions :=
      [(1, { user_id := 7, content_type_id := some 3, object_id := some 9,
             date := 6, transaction_id := "8XL90013RG002711A",
             value := ⟨1500⟩, status := "pending" })] }

/-- A state with one stored `PaymentTransactionError` created at time 5. -/
def dbErr : Db :=
  { users := [7], contentTypes := [], items := [], transactions := [],
    purchasedItems := [],
    transactionErrors := [(2, { date := 5, user_id := 7, response := "TIMEOUT" })] }

/-- The state after creating a second error row in `dbErr` at time 8. -/
def dbErrIns : Db :=
  { dbErr with transactionErrors :=
      (3, { date := 8, user_id := 7, response := "ACK=Failure" })
        :: dbErr.transactionErrors }

/-- The state after re-saving the stored error row of `dbErr` at time 9
with an updated response: the creation timestamp 5 is kept. -/
def dbErrUpd : Db :=
  { dbErr with transactionErrors :=
      [(2, { date := 5, user_id := 7, response := "ACK=Failure" })] }

/-- A state with one user, one item and one completed transaction. -/
def dbShop : Db :=
  { users := [7], contentTypes := [],
    items := [(4, { name := "Widget", description := "A widget", value := ⟨1999⟩ })],
    transactions :=
      [(1, { user_id := 7, content_type_id := none, object_id := none,
             date := 5, transaction_id := "8XL90013RG002711A",
             value := ⟨1999⟩, status := "completed" })],
    purchasedItems := [], transactionErrors := [] }

/-- The state after creating a `PurchasedItem` in `dbShop`. -/
def dbShopIns : Db :=
  { dbShop with purchasedItems :=
      [(9, { user_id := 7, transaction_id := 1, item_id := 4, quantity := 2 })] }

/-!
## Theorems
-/

theorem lookup_cons_self {α : Type} (k : Nat) (v : α) (t : List (Nat × α)) :
    List.lookup k ((k, v) :: t) = some v := by
  simp [List.lookup]

theorem lookup_cons_ne {α : Type} {pk k : Nat} (h : ¬ pk = k) (v : α)
    (t : List (Nat × α)) :
    List.lookup pk ((k, v) :: t) = List.lookup pk t := by
  have hbeq : (pk == k) = false := beq_eq_false_iff_ne.mpr h
  simp [List.lookup, hbeq]

theorem lookup_updateRow {α : Type} (rows : List (Nat × α)) (pk : Nat) (r : α) :
    (updateRow rows pk r).lookup pk = (rows.lookup pk).map fun _ => r := by
  induction rows with
  | nil => rfl
  | cons e t ih =>
    obtain ⟨k, v⟩ := e
    by_cases hk : k = pk
    · subst hk
      have hu : updateRow ((k, v) :: t) k r = (k, r) :: updateRow t k r := by
        simp [updateRow]
      rw [hu, lookup_cons_self, lookup_cons_self]
      rfl
    · have hu : updateRow ((k, v) :: t) pk r = (k, v) :: updateRow t pk r := by
        simp [updateRow, hk]
      have hpk : ¬ pk = k := fun h => hk h.symm
      rw [hu, lookup_cons_ne hpk, lookup_cons_ne hpk, ih]

theorem orderingLe_elim {α : Type} {key : α → Nat × String} {a b : α}
    (h : orderingLe key a b) :
    (key b).fst ≤ (key a).fst ∧
      ((key a).fst = (key b).fst → (key a).snd ≤ (key b).snd) := by
  have h' : (key b).fst < (key a).fst ∨
      ((key a).fst = (key b).fst ∧ (key a).snd ≤ (key b).snd) := h
  rcases h' with hlt | ⟨heq, hle⟩
  · exact ⟨Nat.le_of_lt hlt, fun he => absurd (he ▸ hlt) (lt_irrefl _)⟩
  · exact ⟨Nat.le_of_eq heq.symm, fun _ => hle⟩

/-- C1: the claim that every `PaymentTransactionError` carries an optional
reference to a `PaymentTransaction` fails on the code as written: the
`transaction` declaration (models.py lines 166-170) ends in a trailing
comma, so the class attribute is a tuple wrapping the `ForeignKey` rather
than a `Field`, and the model metaclass registers only `date`, `user` and
`response` as columns — no transaction reference exists on the stored
record.  The declaration itself (with `blank=True, null=True` and a
verbose name) shows the spec's optional foreign key is the intent and the
comma a slip. -/
theorem paymentTransactionError_transaction_not_registered :
    registeredFields paymentTransactionErrorAttrs = ["date", "user", "response"] ∧
    "transaction" ∉ registeredFields paymentTransactionErrorAttrs :=
  ⟨rfl, by decide⟩

/-- C2: the default retrieval of any set of stored payment transactions is
a permutation of them on which the dates are non-increasing and, whenever
two records have equal dates, the transaction identifiers are
non-decreasing (ascending ties). -/
theorem paymentTransaction_default_ordering (rows : List PaymentTransaction) :
    List.Perm (paymentTransactionQuery rows) rows ∧
    (paymentTransactionQuery rows).Pairwise fun a b =>
      b.date ≤ a.date ∧ (a.date = b.date → a.transaction_id ≤ b.transaction_id) := by
  refine ⟨List.perm_insertionSort _ rows, ?_⟩
  have h := List.sorted_insertionSort (orderingLe txnOrderingKey) rows
  exact h.imp fun hab => orderingLe_elim hab

/-- C3: the human-readable label of every `PurchasedItem` is the quantity,
the item's label `"<name> - <value> $"`, the user's e-mail and the
transaction's label (its transaction identifier), assembled as
`"<quantity> <item-label> of <email> [<transaction-label>]"`. -/
theorem purchasedItem_unicode_format (p : PurchasedItem) :
    p.unicode = toString p.quantity ++ " "
      ++ (p.item.name ++ " - " ++ p.item.value.str ++ " $")
      ++ " of " ++ p.user.email ++ " [" ++ p.transaction.transaction_id ++ "]" :=
  rfl

/-- C8: creating an `Item` with a given name, description and value and
reading the row back yields exactly those three field values. -/
theorem item_create_read_round_trip (db : Db) (pk : Nat)
    (name description : String) (value : Decimal2) :
    (insertItem db pk name description value).items.lookup pk
      = some ⟨name, description, value⟩ := by
  simp [insertItem, List.lookup]

/-- C9: the default retrieval of any set of stored purchased items is a
permutation of them on which the referenced transactions' dates are
non-increasing and, whenever two referenced transactions have equal dates,
their transaction identifiers are non-decreasing (ascending ties). -/
theorem purchasedItem_default_ordering (rows : List PurchasedItem) :
    List.Perm (purchasedItemQuery rows) rows ∧
    (purchasedItemQuery rows).Pairwise fun a b =>
      b.transaction.date ≤ a.transaction.date ∧
      (a.transaction.date = b.transaction.date →
        a.transaction.transaction_id ≤ b.transaction.transaction_id) := by
  refine ⟨List.perm_insertionSort _ rows, ?_⟩
  have h := List.sorted_insertionSort (orderingLe purchasedOrderingKey) rows
  exact h.imp fun hab => orderingLe_elim hab

/-- C4 counterexample: saving a `PaymentTransaction` whose status is not
one of the `STATUS_CHOICES` keys succeeds, and the stored row carries the
out-of-set status — `save()` does not check `choices`. -/
theorem paymentTransaction_status_outside_choices_saved :
    insertPaymentTransaction dbW 1 bogusStatusData 11 = Except.ok dbBogus ∧
    (dbBogus.transactions.lookup 1).map (·.status) = some "no-such-status" ∧
    "no-such-status" ∉ STATUS_CHOICES.map Prod.fst :=
  ⟨rfl, rfl, by decide⟩

/-- C4 (amended): the status column is declared with the fixed
`STATUS_CHOICES` enumeration, and model validation (`full_clean`) accepts
a status exactly when it is one of the enumerated keys; `save()` itself
performs no such check and stores any supplied status verbatim. -/
theorem paymentTransaction_status_choices_validation_only :
    (∀ s, choiceValid STATUS_CHOICES s = true ↔ s ∈ STATUS_CHOICES.map Prod.fst) ∧
    (∀ db pk d now db', insertPaymentTransaction db pk d now = Except.ok db' →
      (db'.transactions.lookup pk).map (·.status) = some d.status) := by
  constructor
  · intro s
    simp [choiceValid, List.any_eq_true, List.mem_map, beq_iff_eq]
  · intro db pk d now db' h
    unfold insertPaymentTransaction at h
    split at h
    · cases h
      simp [lookup_cons_self]
    · cases h

/-- C4 witness. -/
theorem paymentTransaction_status_choices_validation_only_witness :
    (choiceValid STATUS_CHOICES "pending" = true ↔
      "pending" ∈ STATUS_CHOICES.map Prod.fst) ∧
    (dbBogus.transactions.lookup 1).map (·.status) = some "no-such-status" :=
  ⟨paymentTransaction_status_choices_validation_only.1 "pending",
   paymentTransaction_status_choices_validation_only.2 dbW 1 bogusStatusData 11
     dbBogus rfl⟩

/-- C5: a `PaymentTransactionError` is stamped with the save time when it
is created (`auto_now_add`), and any later save updating the other fields
stores the new field values but leaves the timestamp unchanged. -/
theorem paymentTransactionError_date_set_once :
    (∀ db pk d now db',
      insertPaymentTransactionError db pk d now = Except.ok db' →
      (db'.transactionErrors.lookup pk).map (·.date) = some now) ∧
    (∀ db pk d now' db',
      updatePaymentTransactionError db pk d now' = Except.ok db' →
      (db'.transactionErrors.lookup pk).map (·.date)
        = (db.transactionErrors.lookup pk).map (·.date) ∧
      (db'.transactionErrors.lookup pk).map (·.user_id) = some d.user_id ∧
      (db'.transactionErrors.lookup pk).map (·.response) = some d.response) := by
  constructor
  · intro db pk d now db' h
    unfold insertPaymentTransactionError at h
    split at h
    · cases h
      simp [lookup_cons_self, dateTimeFieldPreSave]
    · cases h
  · intro db pk d now' db' h
    unfold updatePaymentTransactionError at h
    split at h
    · cases h
    · rename_i old heq
      split at h <;> cases h
      simp [lookup_updateRow, heq, dateTimeFieldPreSave]

/-- C5 witness. -/
theorem paymentTransactionError_date_set_once_witness :
    ((dbErrIns.transactionErrors.lookup 3).map (·.date) = some 8) ∧
    ((dbErrUpd.transactionErrors.lookup 2).map (·.date)
        = (dbErr.transactionErrors.lookup 2).map (·.date) ∧
     (dbErrUpd.transactionErrors.lookup 2).map (·.user_id) = some 7 ∧
     (dbErrUpd.transactionErrors.lookup 2).map (·.response) = some "ACK=Failure") :=
  ⟨paymentTransactionError_date_set_once.1 dbErr 3 ⟨7, "ACK=Failure"⟩ 8 dbErrIns rfl,
   paymentTransactionError_date_set_once.2 dbErr 2 ⟨7, "ACK=Failure"⟩ 9 dbErrUpd rfl⟩

/-- C6: every save of a `PaymentTransaction` — the initial insert and
every later update — stamps the row with the time of that save
(`auto_now` together with `auto_now_add`). -/
theorem paymentTransaction_date_set_on_every_save :
    (∀ db pk d now db',
      insertPaymentTransaction db pk d now = Except.ok db' →
      (db'.transactions.lookup pk).map (·.date) = some now) ∧
    (∀ db pk d now db',
      updatePaymentTransaction db pk d now = Except.ok db' →
      (db'.transactions.lookup pk).map (·.date) = some now) := by
  constructor
  · intro db pk d now db' h
    unfold insertPaymentTransaction at h
    split at h
    · cases h
      simp [lookup_cons_self, dateTimeFieldPreSave]
    · cases h
  · intro db pk d now db' h
    unfold updatePaymentTransaction at h
    split at h
    · cases h
    · rename_i old heq
      split at h <;> cases h
      simp [lookup_updateRow, heq, dateTimeFieldPreSave]

/-- C6 witness. -/
theorem paymentTransaction_date_set_on_every_save_witness :
    ((dbTxn.transactions.lookup 1).map (·.date) = some 5) ∧
    ((dbTxn2.transactions.lookup 1).map (·.date) = some 6) :=
  ⟨paymentTransaction_date_set_on_every_save.1 dbW 1 txnData 5 dbTxn rfl,
   paymentTransaction_date_set_on_every_save.2 dbTxn 1 txnData 6 dbTxn2 rfl⟩

/-- C7: creating a `PurchasedItem` is rejected by the database when its
user, transaction or item reference does not resolve to an existing row;
consequently a successful create preserves the invariant that every
stored `PurchasedItem` references an existing user, transaction and
item. -/
theorem purchasedItem_referential_integrity :
    (∀ db pk d, (db.users.contains d.user_id &&
        (db.transactions.lookup d.transaction_id).isSome &&
        (db.items.lookup d.item_id).isSome) = false →
      insertPurchasedItem db pk d = Except.error "FOREIGN KEY constraint failed") ∧
    (∀ db pk d db', purchasedItemRefsOk db →
      insertPurchasedItem db pk d = Except.ok db' → purchasedItemRefsOk db') := by
  constructor
  · intro db pk d h
    have hneg : ¬ (db.users.contains d.user_id &&
        (db.transactions.lookup d.transaction_id).isSome &&
        (db.items.lookup d.item_id).isSome) = true := by
      rw [h]
      exact Bool.false_ne_true
    unfold insertPurchasedItem
    rw [if_neg hneg]
  · intro db pk d db' hok h
    unfold insertPurchasedItem at h
    split at h <;> cases h
    rename_i hcond
    simp only [Bool.and_eq_true] at hcond
    intro e he
    rcases List.mem_cons.mp he with he | he
    · subst he
      exact ⟨hcond.1.1, hcond.1.2, hcond.2⟩
    · exact hok e he

/-- C7 witness. -/
theorem purchasedItem_referential_integrity_witness :
    insertPurchasedItem dbShop 9 ⟨8, 1, 4, 2⟩
      = Except.error "FOREIGN KEY constraint failed" ∧
    purchasedItemRefsOk dbShopIns :=
  ⟨purchasedItem_referential_integrity.1 dbShop 9 ⟨8, 1, 4, 2⟩ (by decide),
   purchasedItem_referential_integrity.2 dbShop 9 ⟨7, 1, 4, 2⟩ dbShopIns
     (by decide) rfl⟩

/-- C10: the content-type tag and the object identifier of the generic
reference are each independently optional: a transaction saves with a
content type and no object identifier, and with an object identifier and
no content type, the stored row keeping exactly the supplied
combination. -/
theorem paymentTransaction_generic_reference_halves_independent
    (db : Db) (pk uid ct oid : Nat) (tid : String) (v : Decimal2) (s : String)
    (now : Nat) (hu : db.users.contains uid = true)
    (hct : db.contentTypes.contains ct = true) :
    ((insertPaymentTransaction db pk ⟨uid, some ct, none, tid, v, s⟩ now).toOption.bind
        fun db' => (db'.transactions.lookup pk).map
          fun r => (r.content_type_id, r.object_id)) = some (some ct, none) ∧
    ((insertPaymentTransaction db pk ⟨uid, none, some oid, tid, v, s⟩ now).toOption.bind
        fun db' => (db'.transactions.lookup pk).map
          fun r => (r.content_type_id, r.object_id)) = some (none, some oid) := by
  constructor
  · unfold insertPaymentTransaction
    split
    · simp [Except.toOption, lookup_cons_self]
    · rename_i hc
      exact absurd (by rw [Bool.and_eq_true]; exact ⟨hu, hct⟩) hc
  · unfold insertPaymentTransaction
    split
    · simp [Except.toOption, lookup_cons_self]
    · rename_i hc
      exact absurd (by rw [Bool.and_eq_true]; exact ⟨hu, rfl⟩) hc

/-- C10 witness. -/
theorem paymentTransaction_generic_reference_halves_independent_witness :
    ((insertPaymentTransaction dbW 1
          ⟨7, some 3, none, "9AB12345CD678901E", ⟨100⟩, "pending"⟩ 4).toOption.bind
        fun db' => (db'.transactions.lookup 1).map
          fun r => (r.content_type_id, r.object_id)) = some (some 3, none) ∧
    ((insertPaymentTransaction dbW 1
          ⟨7, none, some 5, "9AB12345CD678901E", ⟨100⟩, "pending"⟩ 4).toOption.bind
        fun db' => (db'.transactions.lookup 1).map
          fun r => (r.content_type_id, r.object_id)) = some (none, some 5) :=
  paymentTransaction_generic_reference_halves_independent dbW 1 7 3 5
    "9AB12345CD678901E" ⟨100⟩ "pending" 4 (by decide) (by decide)
